import Mathlib

/-!
Verification of the citizen-affiliation transfer state machine.

This development is a shallow embedding of the core of the
`citizen-affiliation-service` repository: the `Citizen` and `Affiliation`
records (`affiliation/models/citizen.py`, `affiliation/models/affiliation.py`),
the `TransferService` and `CitizenService` operations
(`affiliation/services/transfer_service.py`,
`affiliation/services/citizen_service.py`), and the event consumers
(`affiliation/rabbitmq/register_citizen_consumer.py`,
`affiliation/rabbitmq/unregister_citizen_consumer.py`).

Modelling conventions:
* The database is projected onto a single citizen id: `DB := Option CitRec`
  is the row pair (Citizen, Affiliation) for the id under consideration, or
  `none` when no such row exists.  The Affiliation is modelled as always
  paired with its Citizen (the 1:1 `OneToOneField` with cascade delete;
  every creation path in the source creates both together).
* Nullable columns become `Option`; Python truthiness of a nullable string
  column (`if affiliation.transfer_confirmation_url:`) is `strTruthy`,
  false for `none` and for the empty string.
* `timezone.now()` is an explicit `now : Nat` parameter.
* External effects (queue publishes, outbound HTTP calls, row writes and
  deletes) are recorded in an `Effect` trace, in the order the source
  performs them.  The outcome of a fallible external call (publish result,
  HTTP status code of a response) is an explicit oracle parameter.
* Each operation returns a `Step`: the resulting row state, the
  success/message result dict, and the effect trace.
-/

namespace CitizenAffiliation

/-- `Citizen` model (`affiliation/models/citizen.py`).  Timestamps
(`created_at`, `updated_at`) are auto-managed columns not consulted by any
operation and are omitted. -/
structure Citizen where
  citizen_id : String
  name : String
  address : String
  email : String
  operator_id : String
  operator_name : String
  is_registered : Bool
  is_verified : Bool
  verification_status : String
  pending_deletion : Bool
  verification_message : Option String
deriving Repr, DecidableEq

/-- `Affiliation` model (`affiliation/models/affiliation.py`).  The
auto-managed timestamps (`affiliated_at`, `status_changed_at`) and the
unused columns (`notes`, `transfer_source_operator_id`,
`transfer_source_operator_name`) are omitted: no service operation reads
or branches on them. -/
structure Affiliation where
  operator_id : String
  operator_name : String
  status : String
  transfer_destination_operator_id : Option String
  transfer_destination_operator_name : Option String
  transfer_destination_api_url : Option String
  transfer_confirmation_url : Option String
  transfer_started_at : Option Nat
  transfer_completed_at : Option Nat
  documents_ready : Bool
deriving Repr, DecidableEq

/-- The stored row pair for one citizen id. -/
structure CitRec where
  cit : Citizen
  aff : Affiliation
deriving Repr, DecidableEq

/-- The database projected onto one citizen id. -/
abbrev DB := Option CitRec

/-- The `{"success": ..., "message": ...}` dict every service method
returns (extra informational keys such as `citizen_id` are omitted). -/
structure ServiceResult where
  success : Bool
  message : String
deriving Repr, DecidableEq

/-- The `urlDocuments` map passed around opaquely by the source. -/
abbrev UrlDocuments := List (String × List String)

/-- Observable actions, recorded in the order the source performs them:
row writes/deletes, queue publishes, and outbound HTTP calls. -/
inductive Effect where
  | saveCitizen (c : Citizen)
  | saveAffiliation (a : Affiliation)
  | deleteAffiliation (citizen_id : String)
  | deleteCitizen (citizen_id : String)
  | publishDocumentsDownloadRequested (id : String) (urlDocuments : UrlDocuments)
  | publishRegisterCitizenRequested
      (id name address email operatorId operatorName : String)
  | publishAffiliationCreated (id : String)
  | publishUserTransferred (id : String)
  | publishUnregisterCitizenRequested (id operatorId operatorName : String)
  | confirmationPost (url : String) (id : String) (req_status : Nat)
  | transferPost (url : String) (id name email : String)
      (urlDocuments : UrlDocuments) (confirmAPI : String)
  | fetchDocuments (id : String)
deriving Repr, DecidableEq

/-- Result of one service operation: new row state, returned dict,
and the trace of effects it performed. -/
structure Step where
  state : DB
  res : ServiceResult
  effects : List Effect
deriving Repr, DecidableEq

/-- Python truthiness of a nullable string column: `None` and `""` are
falsy, everything else truthy. -/
def strTruthy : Option String → Bool
  | none => false
  | some s => !(s == "")

/-- `Citizen.VERIFICATION_PENDING`. -/
def VERIFICATION_PENDING : String := "pending"

/-- `Citizen.VERIFICATION_VERIFIED`. -/
def VERIFICATION_VERIFIED : String := "verified"

/-- `Citizen.VERIFICATION_FAILED`. -/
def VERIFICATION_FAILED : String := "failed"

/-- `settings.OPERATOR_ID` (environment-injected; symbolic value). -/
def OPERATOR_ID : String := "OPERATOR_ID"

/-- `settings.OPERATOR_NAME` (environment-injected; symbolic value). -/
def OPERATOR_NAME : String := "OPERATOR_NAME"

/-- `settings.TRANSFER_CONFIRMATION_URL` (environment-injected; symbolic
value). -/
def TRANSFER_CONFIRMATION_URL : String := "TRANSFER_CONFIRMATION_URL"

/-- `TransferService.check_and_complete_transfer`
(`transfer_service.py` lines 156-240).  Completes an incoming transfer
when the affiliation is `TRANSFERRING` and both `documents_ready` and
`is_verified` hold: marks the citizen registered, sets the affiliation
`AFFILIATED` with `transfer_completed_at = now`, sends the confirmation
POST `{id, req_status: 1}` when `transfer_confirmation_url` is truthy,
and publishes `affiliation.created`.  Otherwise it changes nothing. -/
def check_and_complete_transfer (now : Nat) (st : DB) : Step :=
  match st with
  | none =>
      ⟨none, ⟨false, "Citizen not found"⟩, []⟩
  | some r =>
      let citizen_id := r.cit.citizen_id
      if r.aff.status ≠ "TRANSFERRING" then
        ⟨some r, ⟨false, "Citizen " ++ citizen_id ++ " is not being transferred"⟩, []⟩
      else
        let documents_ready := r.aff.documents_ready
        let mintic_verified := r.cit.is_verified
        if documents_ready && mintic_verified then
          let cit := { r.cit with is_registered := true }
          let aff := { r.aff with
            status := "AFFILIATED"
            transfer_completed_at := some now }
          let confEffs :=
            if strTruthy r.aff.transfer_confirmation_url then
              [Effect.confirmationPost (r.aff.transfer_confirmation_url.getD "")
                citizen_id 1]
            else []
          ⟨some ⟨cit, aff⟩,
            ⟨true, "Transfer completed for citizen " ++ citizen_id⟩,
            [Effect.saveCitizen cit, Effect.saveAffiliation aff]
              ++ confEffs ++ [Effect.publishAffiliationCreated citizen_id]⟩
        else
          ⟨some r, ⟨false, "Waiting for documents or MINTIC verification"⟩, []⟩

/-- `TransferService.complete_transfer_after_documents`
(`transfer_service.py` lines 97-154), the handler behind the
`documents.ready` consumer (`onDocumentsReady`): sets
`documents_ready = true`, publishes `register.citizen.requested` with the
citizen's data and the operator settings, then invokes
`check_and_complete_transfer`.  Its own returned dict reports success
regardless of whether the completion check fired. -/
def complete_transfer_after_documents (now : Nat) (st : DB) : Step :=
  match st with
  | none =>
      ⟨none, ⟨false, "Citizen not found"⟩, []⟩
  | some r =>
      let citizen_id := r.cit.citizen_id
      let aff := { r.aff with documents_ready := true }
      let st1 : DB := some ⟨r.cit, aff⟩
      let regEff := Effect.publishRegisterCitizenRequested citizen_id r.cit.name
        r.cit.address r.cit.email OPERATOR_ID OPERATOR_NAME
      let step2 := check_and_complete_transfer now st1
      ⟨step2.state,
        ⟨true, "Documents ready for citizen " ++ citizen_id
          ++ ", waiting for MINTIC verification"⟩,
        Effect.saveAffiliation aff :: regEff :: step2.effects⟩

/-- `handle_register_citizen_completed`
(`register_citizen_consumer.py` lines 34-139), the `onRegisterCompleted`
handler.  `statusCode = 201`: mark the citizen verified; if the
affiliation is `TRANSFERRING` delegate to `check_and_complete_transfer`,
otherwise set it `AFFILIATED`.  Any other status code: mark the citizen
failed and the affiliation `FAILED`.  Unknown citizen: no-op.  The
consumer returns `None`; the `ServiceResult` here summarises the branch
taken. -/
def handle_register_citizen_completed (now : Nat) (statusCode : Nat) (st : DB) : Step :=
  match st with
  | none =>
      ⟨none, ⟨false, "Citizen not found"⟩, []⟩
  | some r =>
      let citizen_id := r.cit.citizen_id
      if statusCode = 201 then
        let cit := { r.cit with
          is_verified := true
          verification_status := VERIFICATION_VERIFIED
          verification_message := some "Citizen successfully registered in MINTIC" }
        let st1 : DB := some ⟨cit, r.aff⟩
        if r.aff.status = "TRANSFERRING" then
          let step2 := check_and_complete_transfer now st1
          ⟨step2.state, ⟨true, "Citizen " ++ citizen_id ++ " now VERIFIED"⟩,
            Effect.saveCitizen cit :: step2.effects⟩
        else
          let aff := { r.aff with status := "AFFILIATED" }
          ⟨some ⟨cit, aff⟩, ⟨true, "Citizen " ++ citizen_id ++ " now VERIFIED"⟩,
            [Effect.saveCitizen cit, Effect.saveAffiliation aff]⟩
      else
        let cit := { r.cit with
          is_verified := false
          verification_status := VERIFICATION_FAILED
          verification_message :=
            some ("Registration failed with status code: " ++ toString statusCode) }
        let aff := { r.aff with status := "FAILED" }
        ⟨some ⟨cit, aff⟩,
          ⟨false, "Citizen " ++ citizen_id ++ " verification FAILED"⟩,
          [Effect.saveCitizen cit, Effect.saveAffiliation aff]⟩

/-- The payload of an incoming transfer request
(`{id, citizenName, citizenEmail, urlDocuments, confirmAPI}`). -/
structure TransferData where
  id : String
  citizenName : String
  citizenEmail : String
  urlDocuments : UrlDocuments
  confirmAPI : String
deriving Repr, DecidableEq

/-- `TransferService.receive_transfer` (`transfer_service.py` lines
19-95): reject when the citizen id is already present, otherwise create
the Citizen (unregistered, unverified, pending, empty address) and the
Affiliation (`TRANSFERRING`, confirmation URL from `confirmAPI`,
`transfer_started_at = now`, `documents_ready = false`) and publish
`documents.download.requested`. -/
def receive_transfer (now : Nat) (td : TransferData) (st : DB) : Step :=
  match st with
  | some r =>
      ⟨some r, ⟨false, "Citizen with id " ++ td.id ++ " already exists"⟩, []⟩
  | none =>
      let cit : Citizen := {
        citizen_id := td.id
        name := td.citizenName
        address := ""
        email := td.citizenEmail
        operator_id := OPERATOR_ID
        operator_name := OPERATOR_NAME
        is_registered := false
        is_verified := false
        verification_status := VERIFICATION_PENDING
        pending_deletion := false
        verification_message := some "Waiting for documents and MINTIC verification" }
      let aff : Affiliation := {
        operator_id := OPERATOR_ID
        operator_name := OPERATOR_NAME
        status := "TRANSFERRING"
        transfer_destination_operator_id := none
        transfer_destination_operator_name := none
        transfer_destination_api_url := none
        transfer_confirmation_url := some td.confirmAPI
        transfer_started_at := some now
        transfer_completed_at := none
        documents_ready := false }
      ⟨some ⟨cit, aff⟩,
        ⟨true, "Transfer request received for citizen " ++ td.id
          ++ ", processing documents"⟩,
        [Effect.saveCitizen cit, Effect.saveAffiliation aff,
         Effect.publishDocumentsDownloadRequested td.id td.urlDocuments]⟩

/-- Target-operator argument of `send_transfer`
(`{operator_id, operator_name, api_url}`). -/
structure TargetOperator where
  operator_id : String
  operator_name : String
  api_url : String
deriving Repr, DecidableEq

/-- `TransferService.send_transfer` (`transfer_service.py` lines
332-422).  Precondition `status = AFFILIATED`; on success sets
`TRANSFERRING` with the three destination fields and
`transfer_started_at = now`, then publishes
`unregister.citizen.requested` (`publishOk` is the publisher's boolean
result).  On publish failure the source rolls back `status`,
`transfer_destination_operator_id` and `transfer_destination_operator_name`
only (lines 394-397): `transfer_destination_api_url` and
`transfer_started_at` keep the values written before the publish. -/
def send_transfer (now : Nat) (target : TargetOperator) (publishOk : Bool)
    (st : DB) : Step :=
  match st with
  | none =>
      ⟨none, ⟨false, "Citizen not found"⟩, []⟩
  | some r =>
      let citizen_id := r.cit.citizen_id
      if r.aff.status ≠ "AFFILIATED" then
        ⟨some r, ⟨false, "Citizen " ++ citizen_id
          ++ " cannot be transferred (status: " ++ r.aff.status ++ ")"⟩, []⟩
      else
        let aff1 := { r.aff with
          status := "TRANSFERRING"
          transfer_destination_operator_id := some target.operator_id
          transfer_destination_operator_name := some target.operator_name
          transfer_destination_api_url := some target.api_url
          transfer_started_at := some now }
        let pubEff := Effect.publishUnregisterCitizenRequested citizen_id
          OPERATOR_ID OPERATOR_NAME
        if publishOk then
          ⟨some ⟨r.cit, aff1⟩,
            ⟨true, "Transfer initiated for citizen " ++ citizen_id⟩,
            [Effect.saveAffiliation aff1, pubEff]⟩
        else
          let aff2 := { aff1 with
            status := "AFFILIATED"
            transfer_destination_operator_id := none
            transfer_destination_operator_name := none }
          ⟨some ⟨r.cit, aff2⟩,
            ⟨false, "Failed to initiate transfer: could not publish unregister event"⟩,
            [Effect.saveAffiliation aff1, pubEff, Effect.saveAffiliation aff2]⟩

/-- `TransferService.continue_transfer_after_unregister`
(`transfer_service.py` lines 242-330): with the affiliation
`TRANSFERRING`, fetch document URLs (`urlDocs` is the document-service
oracle), then POST the transfer payload to
`transfer_destination_api_url`; `responseCode` is the destination
operator's HTTP status.  The source treats a response `not in [200, 201]`
as failure and never mutates the row state in any branch. -/
def continue_transfer_after_unregister (urlDocs : UrlDocuments)
    (responseCode : Nat) (st : DB) : Step :=
  match st with
  | none =>
      ⟨none, ⟨false, "Citizen not found"⟩, []⟩
  | some r =>
      let citizen_id := r.cit.citizen_id
      if r.aff.status ≠ "TRANSFERRING" then
        ⟨some r, ⟨false, "Citizen " ++ citizen_id ++ " is not being transferred"⟩, []⟩
      else
        let fetchEff := Effect.fetchDocuments citizen_id
        if strTruthy r.aff.transfer_destination_api_url = false then
          ⟨some r, ⟨false, "Target operator API URL not found"⟩, [fetchEff]⟩
        else
          let url := r.aff.transfer_destination_api_url.getD ""
          let postEff := Effect.transferPost url citizen_id r.cit.name r.cit.email
            urlDocs TRANSFER_CONFIRMATION_URL
          if ¬ (responseCode = 200 ∨ responseCode = 201) then
            ⟨some r, ⟨false, "Failed to send transfer to target operator"⟩,
              [fetchEff, postEff]⟩
          else
            ⟨some r,
              ⟨true, "Transfer sent to target operator for citizen " ++ citizen_id
                ++ ". Waiting for confirmation."⟩,
              [fetchEff, postEff]⟩

/-- `TransferService.handle_transfer_confirmation`
(`transfer_service.py` lines 424-490).  `req_status = 1`: save the
affiliation as `TRANSFERRED` with `transfer_completed_at = now`, publish
`user.transferred`, then delete the Affiliation and then the Citizen — in
exactly that order.  `req_status ≠ 1`: roll back to `AFFILIATED`,
clearing the destination operator id and name (lines 475-478; the
destination API URL is left as is). -/
def handle_transfer_confirmation (now : Nat) (req_status : Nat) (st : DB) : Step :=
  match st with
  | none =>
      ⟨none, ⟨false, "Citizen not found"⟩, []⟩
  | some r =>
      let citizen_id := r.cit.citizen_id
      if req_status = 1 then
        let aff1 := { r.aff with
          status := "TRANSFERRED"
          transfer_completed_at := some now }
        ⟨none,
          ⟨true, "Citizen " ++ citizen_id
            ++ " transferred successfully and deleted locally"⟩,
          [Effect.saveAffiliation aff1,
           Effect.publishUserTransferred citizen_id,
           Effect.deleteAffiliation citizen_id,
           Effect.deleteCitizen citizen_id]⟩
      else
        let aff2 := { r.aff with
          status := "AFFILIATED"
          transfer_destination_operator_id := none
          transfer_destination_operator_name := none }
        ⟨some ⟨r.cit, aff2⟩,
          ⟨false, "Transfer failed for citizen " ++ citizen_id
            ++ ". Status rolled back to AFFILIATED."⟩,
          [Effect.saveAffiliation aff2]⟩

/-- `handle_unregister_citizen_completed`
(`unregister_citizen_consumer.py` lines 34-171), the
`onUnregisterCompleted` handler.  `success = true` with a `TRANSFERRING`
affiliation: delegate to `continue_transfer_after_unregister` (the
`urlDocs`/`responseCode` oracles are forwarded).  `success = true`
otherwise: direct deletion — publish `user.transferred` (best-effort),
delete the Affiliation, then the Citizen.  `success = false`: the
rollback branch (lines 144-166) sets `pending_deletion = false`, records
the error in `verification_message`, and sets the affiliation status back
to `AFFILIATED`; it does not touch the transfer-destination fields. -/
def handle_unregister_citizen_completed (success : Bool) (errorMsg : String)
    (urlDocs : UrlDocuments) (responseCode : Nat) (st : DB) : Step :=
  match st with
  | none =>
      ⟨none, ⟨false, "Citizen not found"⟩, []⟩
  | some r =>
      let citizen_id := r.cit.citizen_id
      if success then
        if r.aff.status = "TRANSFERRING" then
          continue_transfer_after_unregister urlDocs responseCode (some r)
        else
          ⟨none, ⟨true, "Citizen " ++ citizen_id ++ " fully deleted"⟩,
            [Effect.publishUserTransferred citizen_id,
             Effect.deleteAffiliation citizen_id,
             Effect.deleteCitizen citizen_id]⟩
      else
        let cit := { r.cit with
          pending_deletion := false
          verification_message := some ("Unregister failed: " ++ errorMsg) }
        let aff := { r.aff with status := "AFFILIATED" }
        ⟨some ⟨cit, aff⟩,
          ⟨false, "Kept citizen " ++ citizen_id ++ ", unregister failed"⟩,
          [Effect.saveCitizen cit, Effect.saveAffiliation aff]⟩

/-- The `citizen_data` argument of `register_citizen`. -/
structure CitizenData where
  citizen_id : String
  name : String
  address : String
  email : String
  operator_id : String
  operator_name : String
deriving Repr, DecidableEq

/-- `CitizenService.register_citizen` (`citizen_service.py` lines
43-125).  Rejects when a local citizen exists that is verified or
pending; an existing citizen in any other verification status (`failed`)
falls through both guards, and the subsequent `Citizen.objects.create`
with the same `citizen_id` violates the model's unique constraint, so the
`except` branch returns the generic error with nothing written.
`existsExternally` is the `validate_citizen` oracle (the synchronous
external existence check); `publishOk` is the publisher's result for
`register.citizen.requested` — the source only logs a warning when it is
false and returns the same success dict either way (lines 109-121), so
the outcome does not depend on it. -/
def register_citizen (existsExternally : Bool) (publishOk : Bool)
    (cd : CitizenData) (st : DB) : Step :=
  match st with
  | some r =>
      if r.cit.is_verified then
        ⟨some r, ⟨false, "Citizen with id " ++ cd.citizen_id
          ++ " already registered and verified"⟩, []⟩
      else if r.cit.verification_status = VERIFICATION_PENDING then
        ⟨some r, ⟨false, "Citizen with id " ++ cd.citizen_id
          ++ " already registered, waiting for MINTIC verification"⟩, []⟩
      else if existsExternally then
        ⟨some r, ⟨false, "Citizen exists in external system"⟩, []⟩
      else
        ⟨some r, ⟨false, "Error registering citizen"⟩, []⟩
  | none =>
      if existsExternally then
        ⟨none, ⟨false, "Citizen exists in external system"⟩, []⟩
      else
        let cit : Citizen := {
          citizen_id := cd.citizen_id
          name := cd.name
          address := cd.address
          email := cd.email
          operator_id := cd.operator_id
          operator_name := cd.operator_name
          is_registered := true
          is_verified := false
          verification_status := VERIFICATION_PENDING
          pending_deletion := false
          verification_message := some "Waiting for MINTIC verification" }
        let aff : Affiliation := {
          operator_id := cd.operator_id
          operator_name := cd.operator_name
          status := "PENDING"
          transfer_destination_operator_id := none
          transfer_destination_operator_name := none
          transfer_destination_api_url := none
          transfer_confirmation_url := none
          transfer_started_at := none
          transfer_completed_at := none
          documents_ready := false }
        ⟨some ⟨cit, aff⟩,
          ⟨true, "Citizen registered locally. Waiting for MINTIC verification."⟩,
          [Effect.saveCitizen cit, Effect.saveAffiliation aff,
           Effect.publishRegisterCitizenRequested cd.citizen_id cd.name cd.address
             cd.email cd.operator_id cd.operator_name]⟩

/-- Recogniser for confirmation-callback POST effects. -/
def isConfirmationPost : Effect → Bool
  | Effect.confirmationPost _ _ _ => true
  | _ => false

/-- `n` successive invocations of `check_and_complete_transfer` on the
same citizen (same stored `documents_ready` / `is_verified` values, the
clock held at `now`), threading the row state. -/
def checkIter (now : Nat) : Nat → DB → DB
  | 0, st => st
  | n + 1, st => checkIter now n (check_and_complete_transfer now st).state

/-- One more `check_and_complete_transfer` after any
`check_and_complete_transfer` leaves the row state unchanged: a completed
run leaves status `AFFILIATED` (so the `TRANSFERRING` guard fails), and a
run that did not complete wrote nothing. -/
theorem check_state_step_idem (now now2 : Nat) (st : DB) :
    (check_and_complete_transfer now2
      (check_and_complete_transfer now st).state).state
      = (check_and_complete_transfer now st).state := by
  cases st with
  | none => simp [check_and_complete_transfer]
  | some r =>
      by_cases hT : r.aff.status = "TRANSFERRING"
      · by_cases hC : (r.aff.documents_ready && r.cit.is_verified) = true
        · simp [check_and_complete_transfer, hT, hC]
        · simp [check_and_complete_transfer, hT, hC]
      · simp [check_and_complete_transfer, hT]

/-- Iterating from an already-stepped state is stable. -/
theorem checkIter_stable (now : Nat) (n : Nat) (st : DB) :
    checkIter now n (check_and_complete_transfer now st).state
      = (check_and_complete_transfer now st).state := by
  induction n generalizing st with
  | zero => rfl
  | succ k ih =>
      rw [checkIter, check_state_step_idem]
      exact ih st

/-- C2: `check_and_complete_transfer` is idempotent.  For a citizen whose
affiliation is not `TRANSFERRING` it is a no-op returning a failure
outcome; a second call after any call leaves the state unchanged (in
particular after a completed transfer, whose run left status
`AFFILIATED`); and `n ≥ 1` calls with the same stored
(`documents_ready`, `is_verified`) values give the same state as one
call. -/
theorem check_and_complete_transfer_idempotent
    (r : CitRec) (now now2 : Nat) (n : Nat) (hn : 1 ≤ n)
    (hT : r.aff.status ≠ "TRANSFERRING") :
    ((check_and_complete_transfer now (some r)).state = some r ∧
      (check_and_complete_transfer now (some r)).res.success = false) ∧
    (∀ st : DB,
      (check_and_complete_transfer now2
        (check_and_complete_transfer now st).state).state
        = (check_and_complete_transfer now st).state) ∧
    (∀ st : DB, checkIter now n st = checkIter now 1 st) := by
  refine ⟨⟨?_, ?_⟩, fun st => check_state_step_idem now now2 st, fun st => ?_⟩
  · simp [check_and_complete_transfer, hT]
  · simp [check_and_complete_transfer, hT]
  · obtain ⟨k, rfl⟩ : ∃ k, n = k + 1 := by
      cases n with
      | zero => exact absurd hn (by simp)
      | succ k => exact ⟨k, rfl⟩
    show checkIter now k (check_and_complete_transfer now st).state
        = checkIter now 0 (check_and_complete_transfer now st).state
    rw [checkIter_stable]
    rfl

/-- Witness for `check_and_complete_transfer_idempotent` at a concrete
non-transferring citizen and `n = 3`. -/
theorem check_and_complete_transfer_idempotent_witness :
    ((check_and_complete_transfer 4 (some
        ⟨⟨"42", "n", "a", "e", "o", "on", true, true, "verified", false, none⟩,
         ⟨"o", "on", "AFFILIATED", none, none, none, none, none, none, true⟩⟩)).state
      = some
        ⟨⟨"42", "n", "a", "e", "o", "on", true, true, "verified", false, none⟩,
         ⟨"o", "on", "AFFILIATED", none, none, none, none, none, none, true⟩⟩ ∧
      (check_and_complete_transfer 4 (some
        ⟨⟨"42", "n", "a", "e", "o", "on", true, true, "verified", false, none⟩,
         ⟨"o", "on", "AFFILIATED", none, none, none, none, none, none, true⟩⟩)).res.success
        = false) ∧
    (∀ st : DB,
      (check_and_complete_transfer 9
        (check_and_complete_transfer 4 st).state).state
        = (check_and_complete_transfer 4 st).state) ∧
    (∀ st : DB, checkIter 4 3 st = checkIter 4 1 st) :=
  check_and_complete_transfer_idempotent
    ⟨⟨"42", "n", "a", "e", "o", "on", true, true, "verified", false, none⟩,
     ⟨"o", "on", "AFFILIATED", none, none, none, none, none, none, true⟩⟩
    4 9 3 (by decide) (by decide)

/-- C7: on a known citizen, `handle_transfer_confirmation` with
`req_status = 1` performs exactly, and in this order: the `TRANSFERRED`
status write with `transfer_completed_at = now`, the `user.transferred`
publish, the Affiliation delete, and then the Citizen delete — so the
event is emitted strictly before either deletion and the affiliation is
deleted strictly before the citizen. -/
theorem transfer_confirmation_success_effect_order (r : CitRec) (now : Nat) :
    (handle_transfer_confirmation now 1 (some r)).effects =
      [Effect.saveAffiliation
        { r.aff with status := "TRANSFERRED", transfer_completed_at := some now },
       Effect.publishUserTransferred r.cit.citizen_id,
       Effect.deleteAffiliation r.cit.citizen_id,
       Effect.deleteCitizen r.cit.citizen_id] := by
  simp [handle_transfer_confirmation]

/-- C10: with both completion conditions met on a `TRANSFERRING`
affiliation whose `transfer_confirmation_url` is null or empty,
`check_and_complete_transfer` still finalizes the transfer — citizen
registered, status `AFFILIATED`, `transfer_completed_at = now`,
`affiliation.created` published, success result — while performing zero
confirmation POSTs. -/
theorem check_and_complete_skips_empty_confirmation_url
    (r : CitRec) (now : Nat)
    (hT : r.aff.status = "TRANSFERRING")
    (hd : r.aff.documents_ready = true)
    (hv : r.cit.is_verified = true)
    (hu : strTruthy r.aff.transfer_confirmation_url = false) :
    (check_and_complete_transfer now (some r)).state =
      some ⟨{ r.cit with is_registered := true },
            { r.aff with status := "AFFILIATED", transfer_completed_at := some now }⟩ ∧
    (check_and_complete_transfer now (some r)).res.success = true ∧
    (check_and_complete_transfer now (some r)).effects =
      [Effect.saveCitizen { r.cit with is_registered := true },
       Effect.saveAffiliation
         { r.aff with status := "AFFILIATED", transfer_completed_at := some now },
       Effect.publishAffiliationCreated r.cit.citizen_id] ∧
    (check_and_complete_transfer now (some r)).effects.countP isConfirmationPost
      = 0 := by
  refine ⟨?_, ?_, ?_, ?_⟩ <;>
    simp [check_and_complete_transfer, hT, hd, hv, hu, isConfirmationPost,
      List.countP_cons]

/-- Witness for `check_and_complete_skips_empty_confirmation_url` at a
concrete citizen with a null confirmation URL. -/
theorem check_and_complete_skips_empty_confirmation_url_witness :
    (check_and_complete_transfer 6 (some
      ⟨⟨"7", "n", "a", "e", "o", "on", false, true, "verified", false, none⟩,
       ⟨"o", "on", "TRANSFERRING", none, none, none, none, some 2, none, true⟩⟩)).state =
      some ⟨⟨"7", "n", "a", "e", "o", "on", true, true, "verified", false, none⟩,
            ⟨"o", "on", "AFFILIATED", none, none, none, none, some 2, some 6, true⟩⟩ ∧
    (check_and_complete_transfer 6 (some
      ⟨⟨"7", "n", "a", "e", "o", "on", false, true, "verified", false, none⟩,
       ⟨"o", "on", "TRANSFERRING", none, none, none, none, some 2, none, true⟩⟩)).res.success
      = true ∧
    (check_and_complete_transfer 6 (some
      ⟨⟨"7", "n", "a", "e", "o", "on", false, true, "verified", false, none⟩,
       ⟨"o", "on", "TRANSFERRING", none, none, none, none, some 2, none, true⟩⟩)).effects =
      [Effect.saveCitizen ⟨"7", "n", "a", "e", "o", "on", true, true, "verified", false, none⟩,
       Effect.saveAffiliation
         ⟨"o", "on", "AFFILIATED", none, none, none, none, some 2, some 6, true⟩,
       Effect.publishAffiliationCreated "7"] ∧
    (check_and_complete_transfer 6 (some
      ⟨⟨"7", "n", "a", "e", "o", "on", false, true, "verified", false, none⟩,
       ⟨"o", "on", "TRANSFERRING", none, none, none, none, some 2, none, true⟩⟩)).effects.countP
        isConfirmationPost = 0 :=
  check_and_complete_skips_empty_confirmation_url
    ⟨⟨"7", "n", "a", "e", "o", "on", false, true, "verified", false, none⟩,
     ⟨"o", "on", "TRANSFERRING", none, none, none, none, some 2, none, true⟩⟩
    6 (by decide) (by decide) (by decide) (by decide)

/-- C1: for an incoming transfer sitting at `TRANSFERRING` with neither
prerequisite yet recorded, processing the documents-ready event and then
the registration-completed event with status 201 yields the same final
citizen and affiliation state as the reverse order, and that state is
`AFFILIATED` with `is_registered`, `is_verified` and `documents_ready`
all true. -/
theorem docsReady_registerCompleted_order_independent
    (r : CitRec) (t1 t2 : Nat)
    (hT : r.aff.status = "TRANSFERRING")
    (hv : r.cit.is_verified = false)
    (hd : r.aff.documents_ready = false) :
    (handle_register_citizen_completed t2 201
        (complete_transfer_after_documents t1 (some r)).state).state
      = (complete_transfer_after_documents t2
        (handle_register_citizen_completed t1 201 (some r)).state).state ∧
    ∃ r2,
      (handle_register_citizen_completed t2 201
        (complete_transfer_after_documents t1 (some r)).state).state = some r2 ∧
      r2.aff.status = "AFFILIATED" ∧ r2.cit.is_registered = true ∧
      r2.cit.is_verified = true ∧ r2.aff.documents_ready = true := by
  constructor
  · simp [complete_transfer_after_documents, handle_register_citizen_completed,
      check_and_complete_transfer, hT, hv, hd, VERIFICATION_VERIFIED]
  · refine ⟨⟨{ r.cit with
        is_registered := true
        is_verified := true
        verification_status := VERIFICATION_VERIFIED
        verification_message := some "Citizen successfully registered in MINTIC" },
      { r.aff with
        documents_ready := true
        status := "AFFILIATED"
        transfer_completed_at := some t2 }⟩, ?_, by simp, by simp, by simp, by simp⟩
    simp [complete_transfer_after_documents, handle_register_citizen_completed,
      check_and_complete_transfer, hT, hv, hd, VERIFICATION_VERIFIED]

/-- Witness for `docsReady_registerCompleted_order_independent` at a
concrete just-received incoming transfer. -/
theorem docsReady_registerCompleted_order_independent_witness :
    (handle_register_citizen_completed 3 201
        (complete_transfer_after_documents 2 (some
          ⟨⟨"9", "n", "", "e", "o", "on", false, false, "pending", false, none⟩,
           ⟨"o", "on", "TRANSFERRING", none, none, none, some "http://cb", some 1,
            none, false⟩⟩)).state).state
      = (complete_transfer_after_documents 3
        (handle_register_citizen_completed 2 201 (some
          ⟨⟨"9", "n", "", "e", "o", "on", false, false, "pending", false, none⟩,
           ⟨"o", "on", "TRANSFERRING", none, none, none, some "http://cb", some 1,
            none, false⟩⟩)).state).state ∧
    ∃ r2,
      (handle_register_citizen_completed 3 201
        (complete_transfer_after_documents 2 (some
          ⟨⟨"9", "n", "", "e", "o", "on", false, false, "pending", false, none⟩,
           ⟨"o", "on", "TRANSFERRING", none, none, none, some "http://cb", some 1,
            none, false⟩⟩)).state).state = some r2 ∧
      r2.aff.status = "AFFILIATED" ∧ r2.cit.is_registered = true ∧
      r2.cit.is_verified = true ∧ r2.aff.documents_ready = true :=
  docsReady_registerCompleted_order_independent
    ⟨⟨"9", "n", "", "e", "o", "on", false, false, "pending", false, none⟩,
     ⟨"o", "on", "TRANSFERRING", none, none, none, some "http://cb", some 1,
      none, false⟩⟩
    2 3 (by decide) (by decide) (by decide)

/-- C3: for a citizen id not present locally, `receive_transfer` then the
documents-ready handler then `onRegisterCompleted(201)` ends with
`status = AFFILIATED` and `is_registered = true`, and across the three
steps exactly one confirmation POST is performed, namely
`{id, req_status: 1}` to the callback URL stored from
`payload.confirmAPI`. -/
theorem receive_docs_register_round_trip
    (td : TransferData) (t0 t1 t2 : Nat) (hconf : td.confirmAPI ≠ "") :
    (∃ r2,
      (handle_register_citizen_completed t2 201
        (complete_transfer_after_documents t1
          (receive_transfer t0 td none).state).state).state = some r2 ∧
      r2.aff.status = "AFFILIATED" ∧ r2.cit.is_registered = true) ∧
    ((receive_transfer t0 td none).effects ++
      (complete_transfer_after_documents t1
        (receive_transfer t0 td none).state).effects ++
      (handle_register_citizen_completed t2 201
        (complete_transfer_after_documents t1
          (receive_transfer t0 td none).state).state).effects).countP
        isConfirmationPost = 1 ∧
    Effect.confirmationPost td.confirmAPI td.id 1 ∈
      ((receive_transfer t0 td none).effects ++
        (complete_transfer_after_documents t1
          (receive_transfer t0 td none).state).effects ++
        (handle_register_citizen_completed t2 201
          (complete_transfer_after_documents t1
            (receive_transfer t0 td none).state).state).effects) := by
  have hb : (td.confirmAPI == "") = false := beq_eq_false_iff_ne.mpr hconf
  refine ⟨⟨⟨{
      citizen_id := td.id
      name := td.citizenName
      address := ""
      email := td.citizenEmail
      operator_id := OPERATOR_ID
      operator_name := OPERATOR_NAME
      is_registered := true
      is_verified := true
      verification_status := VERIFICATION_VERIFIED
      pending_deletion := false
      verification_message := some "Citizen successfully registered in MINTIC" },
    {
      operator_id := OPERATOR_ID
      operator_name := OPERATOR_NAME
      status := "AFFILIATED"
      transfer_destination_operator_id := none
      transfer_destination_operator_name := none
      transfer_destination_api_url := none
      transfer_confirmation_url := some td.confirmAPI
      transfer_started_at := some t0
      transfer_completed_at := some t2
      documents_ready := true }⟩, ?_, by simp, by simp⟩, ?_, ?_⟩ <;>
    simp [receive_transfer, complete_transfer_after_documents,
      handle_register_citizen_completed, check_and_complete_transfer,
      VERIFICATION_PENDING, VERIFICATION_VERIFIED, strTruthy, hb,
      isConfirmationPost, List.countP_cons, List.countP_nil]

/-- Witness for `receive_docs_register_round_trip` at a concrete incoming
payload. -/
theorem receive_docs_register_round_trip_witness :
    (∃ r2,
      (handle_register_citizen_completed 3 201
        (complete_transfer_after_documents 2
          (receive_transfer 1 ⟨"5", "nm", "em", [], "http://src/confirm"⟩
            none).state).state).state = some r2 ∧
      r2.aff.status = "AFFILIATED" ∧ r2.cit.is_registered = true) ∧
    ((receive_transfer 1 ⟨"5", "nm", "em", [], "http://src/confirm"⟩ none).effects ++
      (complete_transfer_after_documents 2
        (receive_transfer 1 ⟨"5", "nm", "em", [], "http://src/confirm"⟩
          none).state).effects ++
      (handle_register_citizen_completed 3 201
        (complete_transfer_after_documents 2
          (receive_transfer 1 ⟨"5", "nm", "em", [], "http://src/confirm"⟩
            none).state).state).effects).countP isConfirmationPost = 1 ∧
    Effect.confirmationPost "http://src/confirm" "5" 1 ∈
      ((receive_transfer 1 ⟨"5", "nm", "em", [], "http://src/confirm"⟩ none).effects ++
        (complete_transfer_after_documents 2
          (receive_transfer 1 ⟨"5", "nm", "em", [], "http://src/confirm"⟩
            none).state).effects ++
        (handle_register_citizen_completed 3 201
          (complete_transfer_after_documents 2
            (receive_transfer 1 ⟨"5", "nm", "em", [], "http://src/confirm"⟩
              none).state).state).effects) :=
  receive_docs_register_round_trip ⟨"5", "nm", "em", [], "http://src/confirm"⟩
    1 2 3 (by decide)

/-- The `isVerified ⟺ verificationStatus = verified` invariant on one
citizen row. -/
def citizenInv (c : Citizen) : Prop :=
  c.is_verified = true ↔ c.verification_status = VERIFICATION_VERIFIED

/-- The invariant lifted to the (possibly absent) stored row. -/
def dbInv : DB → Prop
  | none => True
  | some r => citizenInv r.cit

/-- `check_and_complete_transfer` only ever touches `is_registered`,
`status` and `transfer_completed_at`, so it preserves the verification
invariant. -/
theorem check_preserves_verified_inv (now : Nat) (st : DB) (h : dbInv st) :
    dbInv (check_and_complete_transfer now st).state := by
  cases st with
  | none => simp [check_and_complete_transfer, dbInv]
  | some r =>
      simp only [dbInv] at h
      by_cases hT : r.aff.status = "TRANSFERRING"
      · by_cases hC : (r.aff.documents_ready && r.cit.is_verified) = true
        · simp only [check_and_complete_transfer, hT, hC]
          simpa [dbInv, citizenInv] using h
        · simpa [check_and_complete_transfer, hT, hC, dbInv] using h
      · simpa [check_and_complete_transfer, hT, dbInv] using h

/-- C9: every operation that writes a Citizen — `register_citizen`,
`receive_transfer`, `handle_register_citizen_completed` (any status
code), `check_and_complete_transfer`, and the unregister consumer
including its rollback branch — preserves
`is_verified = true ⟺ verification_status = "verified"`. -/
theorem verified_invariant_preserved
    (st : DB) (h : dbInv st)
    (eE pO : Bool) (cd : CitizenData) (now sc : Nat) (td : TransferData)
    (succ : Bool) (msg : String) (docs : UrlDocuments) (code : Nat) :
    dbInv (register_citizen eE pO cd st).state ∧
    dbInv (receive_transfer now td st).state ∧
    dbInv (handle_register_citizen_completed now sc st).state ∧
    dbInv (check_and_complete_transfer now st).state ∧
    dbInv (handle_unregister_citizen_completed succ msg docs code st).state := by
  cases st with
  | none =>
      refine ⟨?_, ?_, ?_, ?_, ?_⟩
      · by_cases hE : eE = true <;>
          simp [register_citizen, dbInv, citizenInv, hE,
            VERIFICATION_PENDING, VERIFICATION_VERIFIED]
      · simp [receive_transfer, dbInv, citizenInv,
          VERIFICATION_PENDING, VERIFICATION_VERIFIED]
      · simp [handle_register_citizen_completed, dbInv]
      · simp [check_and_complete_transfer, dbInv]
      · simp [handle_unregister_citizen_completed, dbInv]
  | some r =>
      simp only [dbInv] at h
      refine ⟨?_, ?_, ?_, ?_, ?_⟩
      · by_cases hv : r.cit.is_verified = true <;>
          by_cases hp : r.cit.verification_status = VERIFICATION_PENDING <;>
          by_cases hE : eE = true <;>
          simp_all [register_citizen, dbInv, citizenInv]
      · simp [receive_transfer, dbInv, h]
      · by_cases h201 : sc = 201 <;>
          by_cases hT : r.aff.status = "TRANSFERRING" <;>
          by_cases hd : r.aff.documents_ready = true <;>
          simp [handle_register_citizen_completed,
            check_and_complete_transfer, dbInv, citizenInv,
            VERIFICATION_VERIFIED, VERIFICATION_FAILED, h201, hT, hd]
      · exact check_preserves_verified_inv now (some r) h
      · by_cases hs : succ = true <;>
          by_cases hT : r.aff.status = "TRANSFERRING" <;>
          by_cases hU : strTruthy r.aff.transfer_destination_api_url = false <;>
          by_cases hc : (code = 200 ∨ code = 201) <;>
          simp_all [handle_unregister_citizen_completed,
            continue_transfer_after_unregister, dbInv, citizenInv]

/-- Witness for `verified_invariant_preserved` at a concrete stored
citizen satisfying the invariant. -/
theorem verified_invariant_preserved_witness :
    dbInv (register_citizen false true ⟨"3", "n", "a", "e", "o", "on"⟩ (some
      ⟨⟨"3", "n", "a", "e", "o", "on", true, false, "pending", false, none⟩,
       ⟨"o", "on", "PENDING", none, none, none, none, none, none, false⟩⟩)).state ∧
    dbInv (receive_transfer 1 ⟨"3", "n", "e", [], "u"⟩ (some
      ⟨⟨"3", "n", "a", "e", "o", "on", true, false, "pending", false, none⟩,
       ⟨"o", "on", "PENDING", none, none, none, none, none, none, false⟩⟩)).state ∧
    dbInv (handle_register_citizen_completed 1 501 (some
      ⟨⟨"3", "n", "a", "e", "o", "on", true, false, "pending", false, none⟩,
       ⟨"o", "on", "PENDING", none, none, none, none, none, none, false⟩⟩)).state ∧
    dbInv (check_and_complete_transfer 1 (some
      ⟨⟨"3", "n", "a", "e", "o", "on", true, false, "pending", false, none⟩,
       ⟨"o", "on", "PENDING", none, none, none, none, none, none, false⟩⟩)).state ∧
    dbInv (handle_unregister_citizen_completed false "err" [] 0 (some
      ⟨⟨"3", "n", "a", "e", "o", "on", true, false, "pending", false, none⟩,
       ⟨"o", "on", "PENDING", none, none, none, none, none, none, false⟩⟩)).state :=
  verified_invariant_preserved
    (some ⟨⟨"3", "n", "a", "e", "o", "on", true, false, "pending", false, none⟩,
           ⟨"o", "on", "PENDING", none, none, none, none, none, none, false⟩⟩)
    (by simp [dbInv, citizenInv, VERIFICATION_VERIFIED])
    false true ⟨"3", "n", "a", "e", "o", "on"⟩ 1 501 ⟨"3", "n", "e", [], "u"⟩
    false "err" [] 0

/-- A concrete affiliated citizen, used as a sample input. -/
def sampleAffiliated : CitRec :=
  ⟨⟨"11", "Ana", "Addr 1", "ana@x.co", "op1", "Op One", true, true, "verified",
    false, none⟩,
   ⟨"op1", "Op One", "AFFILIATED", none, none, none, none, none, none, false⟩⟩

/-- A concrete outgoing-transferring citizen (destination fields set),
used as a sample input. -/
def sampleTransferring : CitRec :=
  ⟨⟨"11", "Ana", "Addr 1", "ana@x.co", "op1", "Op One", true, true, "verified",
    false, none⟩,
   ⟨"op1", "Op One", "TRANSFERRING", some "target_1", some "Target 1",
    some "http://t1/api", none, some 5, none, false⟩⟩

/-- A concrete citizen whose MINTIC verification failed
(`is_verified = false`, `verification_status = "failed"`), used as a
sample input. -/
def sampleFailed : CitRec :=
  ⟨⟨"3", "Bo", "Addr 3", "bo@x.co", "op1", "Op One", true, false, "failed",
    false, none⟩,
   ⟨"op1", "Op One", "FAILED", none, none, none, none, none, none, false⟩⟩

/-- C4 counterexample: after a successful `send_transfer` followed by
`onUnregisterCompleted(success = false)`, the three transfer-destination
fields still hold the values recorded by `send_transfer` — they are not
null as the claim states (the rollback branch of the unregister consumer
only rewrites `status`, `pending_deletion` and `verification_message`). -/
theorem unregister_failure_keeps_destination_fields_cex :
    ((handle_unregister_citizen_completed false "MINTIC unregister failed" [] 0
        (send_transfer 5 ⟨"target_1", "Target 1", "http://t1/api"⟩ true
          (some sampleAffiliated)).state).state).map
      (fun r2 => (r2.aff.status, r2.cit.pending_deletion,
        r2.aff.transfer_destination_operator_id,
        r2.aff.transfer_destination_operator_name,
        r2.aff.transfer_destination_api_url))
      = some ("AFFILIATED", false,
        some "target_1", some "Target 1", some "http://t1/api") := by decide

/-- C4 amended: after a successful `send_transfer`,
`onUnregisterCompleted(success = false)` restores `status = AFFILIATED`
and `pending_deletion = false`, but the three transfer-destination fields
keep the values recorded by `send_transfer` rather than being cleared
(and `verification_message` records the failure), so the affiliation is
not restored to exactly the pre-transfer state. -/
theorem send_then_unregister_failure_rollback
    (r : CitRec) (now : Nat) (target : TargetOperator) (msg : String)
    (docs : UrlDocuments) (code : Nat)
    (hA : r.aff.status = "AFFILIATED") :
    ∃ r2,
      (handle_unregister_citizen_completed false msg docs code
        (send_transfer now target true (some r)).state).state = some r2 ∧
      r2.aff.status = "AFFILIATED" ∧
      r2.cit.pending_deletion = false ∧
      r2.aff.transfer_destination_operator_id = some target.operator_id ∧
      r2.aff.transfer_destination_operator_name = some target.operator_name ∧
      r2.aff.transfer_destination_api_url = some target.api_url := by
  refine ⟨⟨{ r.cit with
      pending_deletion := false
      verification_message := some ("Unregister failed: " ++ msg) },
    { r.aff with
      status := "AFFILIATED"
      transfer_destination_operator_id := some target.operator_id
      transfer_destination_operator_name := some target.operator_name
      transfer_destination_api_url := some target.api_url
      transfer_started_at := some now }⟩, ?_, by simp, by simp, by simp, by simp,
    by simp⟩
  simp [send_transfer, handle_unregister_citizen_completed, hA]

/-- Witness for `send_then_unregister_failure_rollback` at a concrete
affiliated citizen. -/
theorem send_then_unregister_failure_rollback_witness :
    ∃ r2,
      (handle_unregister_citizen_completed false "MINTIC unregister failed" [] 0
        (send_transfer 5 ⟨"target_1", "Target 1", "http://t1/api"⟩ true
          (some sampleAffiliated)).state).state = some r2 ∧
      r2.aff.status = "AFFILIATED" ∧
      r2.cit.pending_deletion = false ∧
      r2.aff.transfer_destination_operator_id = some "target_1" ∧
      r2.aff.transfer_destination_operator_name = some "Target 1" ∧
      r2.aff.transfer_destination_api_url = some "http://t1/api" :=
  send_then_unregister_failure_rollback sampleAffiliated 5
    ⟨"target_1", "Target 1", "http://t1/api"⟩ "MINTIC unregister failed" [] 0
    (by decide)

/-- C5 counterexample: when publishing `unregister.requested` fails,
`send_transfer`'s rollback leaves `transfer_destination_api_url` holding
the target URL and `transfer_started_at` holding the new timestamp, so
the affiliation is distinguishable from its state before the call and not
all three destination fields are cleared. -/
theorem send_transfer_rollback_keeps_api_url_cex :
    ((send_transfer 5 ⟨"target_1", "Target 1", "http://t1/api"⟩ false
        (some sampleAffiliated)).state).map
      (fun r2 => (r2.aff.status, r2.aff.transfer_destination_operator_id,
        r2.aff.transfer_destination_operator_name,
        r2.aff.transfer_destination_api_url, r2.aff.transfer_started_at))
      = some ("AFFILIATED", none, none, some "http://t1/api", some 5) ∧
    sampleAffiliated.aff.transfer_destination_api_url = none ∧
    sampleAffiliated.aff.transfer_started_at = none := by decide

/-- C5 amended: when publishing `unregister.requested` fails,
`send_transfer` returns failure with `status` rolled back to `AFFILIATED`
and the destination operator id and name cleared, but
`transfer_destination_api_url` keeps the target URL and
`transfer_started_at` keeps the new timestamp — the rollback is not
all-or-nothing. -/
theorem send_transfer_publish_failure_rollback
    (r : CitRec) (now : Nat) (target : TargetOperator)
    (hA : r.aff.status = "AFFILIATED") :
    ∃ r2, (send_transfer now target false (some r)).state = some r2 ∧
      (send_transfer now target false (some r)).res.success = false ∧
      r2.cit = r.cit ∧
      r2.aff.status = "AFFILIATED" ∧
      r2.aff.transfer_destination_operator_id = none ∧
      r2.aff.transfer_destination_operator_name = none ∧
      r2.aff.transfer_destination_api_url = some target.api_url ∧
      r2.aff.transfer_started_at = some now := by
  refine ⟨⟨r.cit, { r.aff with
      status := "AFFILIATED"
      transfer_destination_operator_id := none
      transfer_destination_operator_name := none
      transfer_destination_api_url := some target.api_url
      transfer_started_at := some now }⟩, ?_, ?_, by simp, by simp, by simp,
    by simp, by simp, by simp⟩ <;>
  simp [send_transfer, hA]

/-- Witness for `send_transfer_publish_failure_rollback` at a concrete
affiliated citizen. -/
theorem send_transfer_publish_failure_rollback_witness :
    ∃ r2, (send_transfer 5 ⟨"target_1", "Target 1", "http://t1/api"⟩ false
        (some sampleAffiliated)).state = some r2 ∧
      (send_transfer 5 ⟨"target_1", "Target 1", "http://t1/api"⟩ false
        (some sampleAffiliated)).res.success = false ∧
      r2.cit = sampleAffiliated.cit ∧
      r2.aff.status = "AFFILIATED" ∧
      r2.aff.transfer_destination_operator_id = none ∧
      r2.aff.transfer_destination_operator_name = none ∧
      r2.aff.transfer_destination_api_url = some "http://t1/api" ∧
      r2.aff.transfer_started_at = some 5 :=
  send_transfer_publish_failure_rollback sampleAffiliated 5
    ⟨"target_1", "Target 1", "http://t1/api"⟩ (by decide)

/-- C6 counterexample: a `202 Accepted` response — a 2xx status — from
the destination operator makes `continue_transfer_after_unregister`
return failure, because the source accepts only 200 and 201; the claim
that every 2xx response returns success is false. -/
theorem continue_transfer_202_fails_cex :
    200 ≤ 202 ∧ 202 < 300 ∧
    (continue_transfer_after_unregister [] 202 (some sampleTransferring)).res.success
      = false ∧
    (continue_transfer_after_unregister [] 202 (some sampleTransferring)).state
      = some sampleTransferring := by decide

/-- C6 amended: on a `TRANSFERRING` affiliation with a stored destination
API URL, `continue_transfer_after_unregister` never mutates the stored
records — every response leaves the state unchanged (so non-2xx is
retryable with no rollback, and on success the citizen and affiliation
remain until the destination operator calls back) — and it returns
success exactly for response status 200 or 201 (not for other 2xx
codes). -/
theorem continue_transfer_response_code_outcome
    (r : CitRec) (docs : UrlDocuments) (code : Nat)
    (hT : r.aff.status = "TRANSFERRING")
    (hU : strTruthy r.aff.transfer_destination_api_url = true) :
    (continue_transfer_after_unregister docs code (some r)).state = some r ∧
    ((continue_transfer_after_unregister docs code (some r)).res.success = true
      ↔ (code = 200 ∨ code = 201)) := by
  by_cases hc : (code = 200 ∨ code = 201) <;>
    simp [continue_transfer_after_unregister, hT, hU, hc]

/-- Witness for `continue_transfer_response_code_outcome` at a concrete
transferring citizen and response 201. -/
theorem continue_transfer_response_code_outcome_witness :
    (continue_transfer_after_unregister [] 201 (some sampleTransferring)).state
      = some sampleTransferring ∧
    ((continue_transfer_after_unregister [] 201
        (some sampleTransferring)).res.success = true ↔ (201 = 200 ∨ 201 = 201)) :=
  continue_transfer_response_code_outcome sampleTransferring [] 201
    (by decide) (by decide)

/-- C8 counterexample: an existing local citizen with
`verification_status = "failed"` is rejected by neither already-registered
guard (not verified, not pending), and with a negative external check the
claim says `register_citizen` creates the records and returns success;
instead the duplicate create fails on the unique `citizen_id` constraint
and the call returns the generic error, writing nothing. -/
theorem register_citizen_failed_status_cex :
    (register_citizen false true ⟨"3", "Bo", "Addr 3", "bo@x.co", "op1", "Op One"⟩
      (some sampleFailed)).res.success = false ∧
    (register_citizen false true ⟨"3", "Bo", "Addr 3", "bo@x.co", "op1", "Op One"⟩
      (some sampleFailed)).res.message = "Error registering citizen" ∧
    (register_citizen false true ⟨"3", "Bo", "Addr 3", "bo@x.co", "op1", "Op One"⟩
      (some sampleFailed)).state = some sampleFailed ∧
    (register_citizen false true ⟨"3", "Bo", "Addr 3", "bo@x.co", "op1", "Op One"⟩
      (some sampleFailed)).effects = [] ∧
    sampleFailed.cit.is_verified = false ∧
    sampleFailed.cit.verification_status ≠ VERIFICATION_PENDING := by decide

/-- C8 amended: when no local Citizen row with the id exists and the
external existence check is negative, `register_citizen` creates the
Citizen (`is_registered = true`, `is_verified = false`,
`verification_status = pending`) and its Affiliation (`status = PENDING`)
— both records exist afterwards — then emits `register.requested`;
failure of the event emission does not roll back the create and the
operation still returns success (the outcome is the same for either
publisher result).  When a local citizen with `verification_status =
failed` exists, the guards pass but the create fails on the uniqueness
constraint and the call returns failure, writing nothing. -/
theorem register_citizen_creates_and_emits (cd : CitizenData) (publishOk : Bool) :
    ∃ cit aff,
      (register_citizen false publishOk cd none).state = some ⟨cit, aff⟩ ∧
      (register_citizen false publishOk cd none).res.success = true ∧
      cit.is_registered = true ∧ cit.is_verified = false ∧
      cit.verification_status = VERIFICATION_PENDING ∧
      aff.status = "PENDING" ∧
      (register_citizen false publishOk cd none).effects =
        [Effect.saveCitizen cit, Effect.saveAffiliation aff,
         Effect.publishRegisterCitizenRequested cd.citizen_id cd.name cd.address
           cd.email cd.operator_id cd.operator_name] := by
  refine ⟨{
      citizen_id := cd.citizen_id
      name := cd.name
      address := cd.address
      email := cd.email
      operator_id := cd.operator_id
      operator_name := cd.operator_name
      is_registered := true
      is_verified := false
      verification_status := VERIFICATION_PENDING
      pending_deletion := false
      verification_message := some "Waiting for MINTIC verification" },
    {
      operator_id := cd.operator_id
      operator_name := cd.operator_name
      status := "PENDING"
      transfer_destination_operator_id := none
      transfer_destination_operator_name := none
      transfer_destination_api_url := none
      transfer_confirmation_url := none
      transfer_started_at := none
      transfer_completed_at := none
      documents_ready := false },
    ?_, ?_, by simp, by simp, by simp, by simp, ?_⟩ <;>
  simp [register_citizen]

end CitizenAffiliation
